import Mathlib

/-!
Shallow embedding of `main.go` from `go-simple-crud-mongo`: a gin HTTP CRUD
service over a single MongoDB collection of todo documents.

Modelling choices:
* The collection is a `List todo` in natural (insertion) order; MongoDB
  inserts append, and `_id`-filtered operations act on the first match.
* A handler is a pure function from its inputs (path parameter, parsed
  request body, injected storage-failure outcomes, collection state) to a
  `HandlerResult`: the HTTP responses it wrote, the resulting collection
  state, and whether it panicked.
* Storage-layer failures of each driver call are injected through an
  `Option String` parameter (`some msg` = that call fails with a generic
  storage error carrying `msg`); `none` means the call reaches the
  collection and behaves deterministically.
* `toggleTodoStatus` performs two separate driver calls (FindOne, then
  UpdateOne); to express interleaved concurrent writers it takes the
  collection state observed by each call separately (`dbAtRead`,
  `dbAtWrite`); with no concurrent writer the two coincide.
-/

namespace SimpleCrud

/-- One hex digit, as accepted by Go's `encoding/hex` used by
`bson.ObjectIDFromHex`. -/
def isHexDigit (c : Char) : Bool :=
  ('0' ≤ c && c ≤ '9') || ('a' ≤ c && c ≤ 'f') || ('A' ≤ c && c ≤ 'F')

/-- Numeric value of a hex digit. -/
def hexDigitVal (c : Char) : Nat :=
  if '0' ≤ c && c ≤ '9' then c.toNat - '0'.toNat
  else if 'a' ≤ c && c ≤ 'f' then c.toNat - 'a'.toNat + 10
  else c.toNat - 'A'.toNat + 10

/-- Decode a hex character sequence two digits at a time into bytes. -/
def decodeHexBytes : List Char → List Nat
  | c1 :: c2 :: rest => (16 * hexDigitVal c1 + hexDigitVal c2) :: decodeHexBytes rest
  | _ => []

/-- `bson.ObjectID`: a 12-byte identifier. -/
structure ObjectID where
  bytes : List Nat
deriving DecidableEq, Repr

/-- `bson.ObjectIDFromHex`: succeeds exactly on 24-character strings of hex
digits, decoding them to the 12 identifier bytes. -/
def objectIDFromHex (s : String) : Option ObjectID :=
  if s.data.length = 24 && s.data.all isHexDigit then
    some ⟨decodeHexBytes s.data⟩
  else none

/-- The persisted `todo` document (`type todo struct` in `main.go`). -/
structure todo where
  ID : ObjectID
  Item : String
  Completed : Bool
deriving DecidableEq, Repr

/-- The bound create/update request body (`type todoPayload struct`). -/
structure todoPayload where
  Item : String
  Completed : Bool
deriving DecidableEq, Repr

/-- A request body as seen by `ShouldBindJSON`: either JSON that fails to
bind (malformed, or fields of the wrong type), or a JSON object where each
known field is present (`some`) or absent (`none`). Binding fills absent
fields with Go zero values (`""`, `false`). -/
inductive ReqBody where
  | malformed
  | wellFormed (item : Option String) (completed : Option Bool)
deriving DecidableEq, Repr

/-- `ShouldBindJSON` result on a well-formed body: absent fields become the
Go zero values. -/
def bindPayload (item : Option String) (completed : Option Bool) : todoPayload :=
  ⟨item.getD "", completed.getD false⟩

/-- The `validate:"required,max=100,min=2"` tags on `todoPayload.Item`
(go-playground/validator counts runes; `String.length` counts unicode
scalar values, matching). Tags are checked in order; `true` means the
payload passes validation. -/
def validateItem (s : String) : Bool :=
  if s = "" then false
  else if s.length > 100 then false
  else if s.length < 2 then false
  else true

/-- `parseValidationError` rendered for the `Item` field: the message of
the first failing tag, in the Go format string of `main.go`. -/
def parseValidationError (s : String) : String :=
  if s = "" then "Field validation for 'Item' failed: 'required' (condition: )\n"
  else if s.length > 100 then "Field validation for 'Item' failed: 'max' (condition: 100)\n"
  else "Field validation for 'Item' failed: 'min' (condition: 2)\n"

/-- Storage-layer errors: `mongo.ErrNoDocuments` versus any other driver
error. -/
inductive DbErr where
  | noDocuments
  | storage (msg : String)
deriving DecidableEq, Repr

/-- `err.Error()` for the two error classes. -/
def DbErr.message : DbErr → String
  | .noDocuments => "mongo: no documents in result"
  | .storage msg => msg

/-- HTTP response bodies the handlers produce. -/
inductive Body where
  | errorMsg (msg : String)
  | todoBody (t : todo)
  | todosBody (ts : List todo)
deriving DecidableEq, Repr

/-- What one handler invocation did: the (status, body) responses written
in order, the collection state afterwards, and whether the handler
panicked. -/
structure HandlerResult where
  responses : List (Nat × Body)
  db : List todo
  panicked : Bool
deriving DecidableEq, Repr

/-- `collection.FindOne(ctx, bson.M{"_id": oid})`: the first document with
the given `_id` in natural order, `ErrNoDocuments` when none matches, or
an injected storage failure. -/
def findOne (fail : Option String) (db : List todo) (oid : ObjectID) : Except DbErr todo :=
  match fail with
  | some msg => .error (.storage msg)
  | none =>
      match db.find? (fun t => decide (t.ID = oid)) with
      | some t => .ok t
      | none => .error .noDocuments

/-- Set `completed` on the first document with the given `_id`; returns
the matched count together with the new collection state. -/
def setCompletedFirst : List todo → ObjectID → Bool → Nat × List todo
  | [], _, _ => (0, [])
  | t :: ts, oid, b =>
      if t.ID = oid then (1, { t with Completed := b } :: ts)
      else
        let r := setCompletedFirst ts oid b
        (r.1, t :: r.2)

/-- `collection.UpdateOne(ctx, filter, {"$set": {"completed": b}})`:
returns the matched count and the new state, or an injected storage
failure. A zero-match update is NOT an error. -/
def updateOne (fail : Option String) (db : List todo) (oid : ObjectID) (b : Bool) :
    Except DbErr (Nat × List todo) :=
  match fail with
  | some msg => .error (.storage msg)
  | none => .ok (setCompletedFirst db oid b)

/-- Replace `item` on the first document with the given `_id`; returns the
post-update document and the new state, or `none` when nothing matches. -/
def setItemFirst : List todo → ObjectID → String → Option (todo × List todo)
  | [], _, _ => none
  | t :: ts, oid, s =>
      if t.ID = oid then some ({ t with Item := s }, { t with Item := s } :: ts)
      else
        match setItemFirst ts oid s with
        | none => none
        | some r => some (r.1, t :: r.2)

/-- `collection.FindOneAndUpdate(ctx, filter, {"$set": {"item": s}},
ReturnDocument(After))`: the post-update document and new state,
`ErrNoDocuments` when nothing matches, or an injected storage failure. -/
def findOneAndUpdate (fail : Option String) (db : List todo) (oid : ObjectID) (s : String) :
    Except DbErr (todo × List todo) :=
  match fail with
  | some msg => .error (.storage msg)
  | none =>
      match setItemFirst db oid s with
      | none => .error .noDocuments
      | some r => .ok r

/-- Remove the first document with the given `_id`; returns it and the new
state, or `none` when nothing matches. -/
def removeFirst : List todo → ObjectID → Option (todo × List todo)
  | [], _ => none
  | t :: ts, oid =>
      if t.ID = oid then some (t, ts)
      else
        match removeFirst ts oid with
        | none => none
        | some r => some (r.1, t :: r.2)

/-- `collection.FindOneAndDelete(ctx, filter)`: the removed document and
the new state, `ErrNoDocuments` when nothing matches, or an injected
storage failure. -/
def findOneAndDelete (fail : Option String) (db : List todo) (oid : ObjectID) :
    Except DbErr (todo × List todo) :=
  match fail with
  | some msg => .error (.storage msg)
  | none =>
      match removeFirst db oid with
      | none => .error .noDocuments
      | some r => .ok r

/-- The outcome of `collection.InsertOne` for `createTodo`: on failure the
driver returns a nil result together with the error; on success it returns
the identifier MongoDB generated for the document. -/
inductive InsertOutcome where
  | failure (msg : String)
  | success (newId : ObjectID)
deriving DecidableEq, Repr

/-- `createTodo` (`POST /todos`). Binds the JSON payload (400 on bind
failure), validates it (400 with the validator message), builds the
document and inserts it. NOTE, faithful to the source: the insert-error
branch writes the 500 response but has no `return`, so execution
continues to `insertResult.InsertedID`; the driver returned a nil
`insertResult` with the error, so that field access panics
(`panicked := true`) before any further response is written. -/
def createTodo (body : ReqBody) (ins : InsertOutcome) (db : List todo) : HandlerResult :=
  match body with
  | .malformed => ⟨[(400, .errorMsg "invalid request body")], db, false⟩
  | .wellFormed item completed =>
      let payload := bindPayload item completed
      if validateItem payload.Item then
        match ins with
        | .failure msg => ⟨[(500, .errorMsg msg)], db, true⟩
        | .success newId =>
            let t : todo := ⟨newId, payload.Item, payload.Completed⟩
            ⟨[(201, .todoBody t)], db ++ [t], false⟩
      else ⟨[(400, .errorMsg (parseValidationError payload.Item))], db, false⟩

/-- `getTodos` (`GET /todos`): `collection.Find(ctx, bson.M{})` decoded in
cursor order; an empty collection yields the empty array (the slice is
initialised to `[]todo{}`). -/
def getTodos (fail : Option String) (db : List todo) : HandlerResult :=
  match fail with
  | some msg => ⟨[(500, .errorMsg msg)], db, false⟩
  | none => ⟨[(200, .todosBody db)], db, false⟩

/-- `getTodo` (`GET /todos/:id`). -/
def getTodo (id : String) (fail : Option String) (db : List todo) : HandlerResult :=
  match objectIDFromHex id with
  | none => ⟨[(400, .errorMsg "invalid id format")], db, false⟩
  | some objectId =>
      match findOne fail db objectId with
      | .error .noDocuments => ⟨[(404, .errorMsg DbErr.noDocuments.message)], db, false⟩
      | .error (.storage msg) => ⟨[(500, .errorMsg msg)], db, false⟩
      | .ok t => ⟨[(200, .todoBody t)], db, false⟩

/-- `toggleTodoStatus` (`PATCH /todos/:id`): FindOne against `dbAtRead`,
then UpdateOne against `dbAtWrite` (the two coincide when no concurrent
writer intervenes). Faithful to the source, the `UpdateOne` result
(matched count) is discarded (`_, err = collection.UpdateOne(...)`): only
a driver error changes the outcome, and the handler then answers 200 with
the flipped in-memory copy. -/
def toggleTodoStatus (id : String) (findFail updateFail : Option String)
    (dbAtRead dbAtWrite : List todo) : HandlerResult :=
  match objectIDFromHex id with
  | none => ⟨[(400, .errorMsg "invalid id format")], dbAtWrite, false⟩
  | some objectId =>
      match findOne findFail dbAtRead objectId with
      | .error .noDocuments => ⟨[(404, .errorMsg "document not found")], dbAtWrite, false⟩
      | .error (.storage msg) => ⟨[(500, .errorMsg msg)], dbAtWrite, false⟩
      | .ok t =>
          match updateOne updateFail dbAtWrite objectId (!t.Completed) with
          | .error e => ⟨[(500, .errorMsg e.message)], dbAtWrite, false⟩
          | .ok r => ⟨[(200, .todoBody { t with Completed := !t.Completed })], r.2, false⟩

/-- `updateTodo` (`PUT /todos/:id`): id parse, bind, validate, then
`FindOneAndUpdate` setting only `item`; the payload's `Completed` is never
read. -/
def updateTodo (id : String) (body : ReqBody) (fail : Option String) (db : List todo) :
    HandlerResult :=
  match objectIDFromHex id with
  | none => ⟨[(400, .errorMsg "invalid id format")], db, false⟩
  | some objectId =>
      match body with
      | .malformed => ⟨[(400, .errorMsg "invalid request body")], db, false⟩
      | .wellFormed item completed =>
          let payload := bindPayload item completed
          if validateItem payload.Item then
            match findOneAndUpdate fail db objectId payload.Item with
            | .error .noDocuments => ⟨[(404, .errorMsg "todo not found")], db, false⟩
            | .error (.storage msg) => ⟨[(500, .errorMsg msg)], db, false⟩
            | .ok r => ⟨[(200, .todoBody r.1)], r.2, false⟩
          else ⟨[(400, .errorMsg (parseValidationError payload.Item))], db, false⟩

/-- `deleteTodo` (`DELETE /todos/:id`). -/
def deleteTodo (id : String) (fail : Option String) (db : List todo) : HandlerResult :=
  match objectIDFromHex id with
  | none => ⟨[(400, .errorMsg "invalid id format")], db, false⟩
  | some objectId =>
      match findOneAndDelete fail db objectId with
      | .error .noDocuments => ⟨[(404, .errorMsg "document not found")], db, false⟩
      | .error (.storage msg) => ⟨[(500, .errorMsg msg)], db, false⟩
      | .ok r => ⟨[(200, .todoBody r.1)], r.2, false⟩

/-- The document `createTodo` builds and persists for a create request
with item `r.1`, payload completed `r.2.1`, and generated identifier
`r.2.2`. -/
def mkTodo (r : String × Bool × ObjectID) : todo := ⟨r.2.2, r.1, r.2.1⟩

/-- Run a sequence of `POST /todos` requests (item, completed, generated
identifier), each insert succeeding, threading the collection state. -/
def runCreates : List (String × Bool × ObjectID) → List todo → List todo
  | [], db => db
  | r :: rest, db =>
      runCreates rest (createTodo (.wellFormed (some r.1) (some r.2.1)) (.success r.2.2) db).db

/-! ### Helper lemmas about the collection operations -/

theorem validateItem_iff (s : String) :
    validateItem s = true ↔ 2 ≤ s.length ∧ s.length ≤ 100 := by
  unfold validateItem
  rcases eq_or_ne s "" with h | h
  · subst h
    simp [String.length]
  · have hl : s.length ≠ 0 := fun h0 => h (by
      cases s with
      | mk data => cases data with
        | nil => rfl
        | cons a as => simp [String.length] at h0)
    by_cases h100 : s.length > 100
    · simp [h, h100]
    · by_cases h2 : s.length < 2
      · simp [h, h100, h2]
      · simp [h, h100, h2]
        omega

theorem find_eq_none (db : List todo) (oid : ObjectID) (h : ∀ u ∈ db, u.ID ≠ oid) :
    db.find? (fun u => decide (u.ID = oid)) = none := by
  simp only [List.find?_eq_none, decide_eq_true_eq]
  exact h

theorem find_split (pre post : List todo) (t : todo) (oid : ObjectID)
    (hpre : ∀ u ∈ pre, u.ID ≠ oid) (ht : t.ID = oid) :
    (pre ++ t :: post).find? (fun u => decide (u.ID = oid)) = some t := by
  induction pre with
  | nil => simp [List.find?, ht]
  | cons a as ih =>
      have ha := hpre a (List.mem_cons_self a as)
      simp [List.find?, ha, ih fun u hu => hpre u (List.mem_cons_of_mem a hu)]

theorem setCompletedFirst_split (pre post : List todo) (t : todo) (oid : ObjectID) (b : Bool)
    (hpre : ∀ u ∈ pre, u.ID ≠ oid) (ht : t.ID = oid) :
    setCompletedFirst (pre ++ t :: post) oid b = (1, pre ++ { t with Completed := b } :: post) := by
  induction pre with
  | nil => simp [setCompletedFirst, ht]
  | cons a as ih =>
      have ha := hpre a (List.mem_cons_self a as)
      simp [setCompletedFirst, ha, ih fun u hu => hpre u (List.mem_cons_of_mem a hu)]

theorem setItemFirst_eq_none (db : List todo) (oid : ObjectID) (s : String)
    (h : ∀ u ∈ db, u.ID ≠ oid) : setItemFirst db oid s = none := by
  induction db with
  | nil => rfl
  | cons a as ih =>
      have ha := h a (List.mem_cons_self a as)
      simp [setItemFirst, ha, ih fun u hu => h u (List.mem_cons_of_mem a hu)]

theorem setItemFirst_split (pre post : List todo) (t : todo) (oid : ObjectID) (s : String)
    (hpre : ∀ u ∈ pre, u.ID ≠ oid) (ht : t.ID = oid) :
    setItemFirst (pre ++ t :: post) oid s
      = some ({ t with Item := s }, pre ++ { t with Item := s } :: post) := by
  induction pre with
  | nil => simp [setItemFirst, ht]
  | cons a as ih =>
      have ha := hpre a (List.mem_cons_self a as)
      simp [setItemFirst, ha, ih fun u hu => hpre u (List.mem_cons_of_mem a hu)]

theorem removeFirst_eq_none (db : List todo) (oid : ObjectID)
    (h : ∀ u ∈ db, u.ID ≠ oid) : removeFirst db oid = none := by
  induction db with
  | nil => rfl
  | cons a as ih =>
      have ha := h a (List.mem_cons_self a as)
      simp [removeFirst, ha, ih fun u hu => h u (List.mem_cons_of_mem a hu)]

theorem removeFirst_split (pre post : List todo) (t : todo) (oid : ObjectID)
    (hpre : ∀ u ∈ pre, u.ID ≠ oid) (ht : t.ID = oid) :
    removeFirst (pre ++ t :: post) oid = some (t, pre ++ post) := by
  induction pre with
  | nil => simp [removeFirst, ht]
  | cons a as ih =>
      have ha := hpre a (List.mem_cons_self a as)
      simp [removeFirst, ha, ih fun u hu => hpre u (List.mem_cons_of_mem a hu)]

/-! ### Claims -/

/-- C3: for GET/PATCH/PUT/DELETE on `/todos/:id`, whenever the `:id` path
parameter is not a syntactically valid hex ObjectID, the handler returns
exactly one 400 response (never 404, never 500), leaves the collection
untouched and does not panic, regardless of the request body, the
collection contents, and any injected storage failure. -/
theorem c3_invalid_id_returns_400 (idStr : String) (hbad : objectIDFromHex idStr = none)
    (body : ReqBody) (db dbW : List todo) (f1 f2 f3 f4 f5 : Option String) :
    getTodo idStr f1 db = ⟨[(400, .errorMsg "invalid id format")], db, false⟩ ∧
    toggleTodoStatus idStr f2 f3 db dbW = ⟨[(400, .errorMsg "invalid id format")], dbW, false⟩ ∧
    updateTodo idStr body f4 db = ⟨[(400, .errorMsg "invalid id format")], db, false⟩ ∧
    deleteTodo idStr f5 db = ⟨[(400, .errorMsg "invalid id format")], db, false⟩ := by
  simp [getTodo, toggleTodoStatus, updateTodo, deleteTodo, hbad]

/-- Witness for C3 at the concrete invalid identifier `"nope"`. -/
theorem c3_invalid_id_returns_400_witness :
    getTodo "nope" none [] = ⟨[(400, .errorMsg "invalid id format")], [], false⟩ :=
  (c3_invalid_id_returns_400 "nope" (by decide) .malformed [] [] none none none none none).1

/-- C4: for GET/PATCH/PUT (valid payload)/DELETE on `/todos/:id`, whenever
the `:id` parameter is a well-formed identifier that matches no record in
the collection, the handler returns exactly one 404 response and the
collection is unchanged. -/
theorem c4_missing_id_returns_404 (idStr : String) (oid : ObjectID)
    (hhex : objectIDFromHex idStr = some oid)
    (db : List todo) (hmiss : ∀ u ∈ db, u.ID ≠ oid)
    (item : String) (hvalid : validateItem item = true) (completed : Option Bool) :
    getTodo idStr none db = ⟨[(404, .errorMsg DbErr.noDocuments.message)], db, false⟩ ∧
    toggleTodoStatus idStr none none db db
      = ⟨[(404, .errorMsg "document not found")], db, false⟩ ∧
    updateTodo idStr (.wellFormed (some item) completed) none db
      = ⟨[(404, .errorMsg "todo not found")], db, false⟩ ∧
    deleteTodo idStr none db = ⟨[(404, .errorMsg "document not found")], db, false⟩ := by
  simp [getTodo, toggleTodoStatus, updateTodo, deleteTodo, hhex, findOne,
    findOneAndUpdate, findOneAndDelete, bindPayload, hvalid,
    find_eq_none db oid hmiss, setItemFirst_eq_none db oid item hmiss,
    removeFirst_eq_none db oid hmiss]

/-- Witness for C4: a concrete well-formed identifier absent from a
one-record collection. -/
theorem c4_missing_id_returns_404_witness :
    getTodo "aaaaaaaaaaaaaaaaaaaaaaaa" none [⟨⟨List.replicate 12 0⟩, "task", false⟩]
      = ⟨[(404, .errorMsg DbErr.noDocuments.message)],
         [⟨⟨List.replicate 12 0⟩, "task", false⟩], false⟩ :=
  (c4_missing_id_returns_404 "aaaaaaaaaaaaaaaaaaaaaaaa" ⟨List.replicate 12 170⟩ (by decide)
    [⟨⟨List.replicate 12 0⟩, "task", false⟩] (by decide) "ok" (by decide) none).1

/-- C1 (evidence of the divergence): a toggle where the document exists at
the FindOne but has been deleted before the UpdateOne. The UpdateOne call
matches zero documents (first conjunct), yet the handler answers 200 with
the flipped in-memory copy — not 404 — because the source discards the
UpdateOne result and only checks its error. -/
theorem c1_toggle_race_returns_200_not_404 :
    (setCompletedFirst [] ⟨List.replicate 12 170⟩ true).1 = 0 ∧
    toggleTodoStatus "aaaaaaaaaaaaaaaaaaaaaaaa" none none
      [⟨⟨List.replicate 12 170⟩, "task", false⟩] []
      = ⟨[(200, .todoBody ⟨⟨List.replicate 12 170⟩, "task", true⟩)], [], false⟩ :=
  ⟨rfl, by decide⟩

/-- C2 (evidence of the divergence): when the insert fails on a valid
create request, the handler writes the 500 response but then — the
insert-error branch has no `return` — dereferences the nil insert result
and panics instead of terminating cleanly. -/
theorem c2_create_insert_failure_panics :
    createTodo (.wellFormed (some "hello") none) (.failure "connection reset") []
      = ⟨[(500, .errorMsg "connection reset")], [], true⟩ := by
  decide

/-- C5: creating with `item` of length 1 or 101 answers 400 with the
validator's message; length 2 or 100 succeeds with 201 (insert working)
and persists the document; `completed` defaults to false when omitted. -/
theorem c5_create_item_length_boundaries (s1 s2 s3 s4 : String)
    (h1 : s1.length = 1) (h2 : s2.length = 2) (h3 : s3.length = 100) (h4 : s4.length = 101)
    (c : Option Bool) (ins : InsertOutcome) (db : List todo) (oid : ObjectID) :
    createTodo (.wellFormed (some s1) c) ins db
      = ⟨[(400, .errorMsg (parseValidationError s1))], db, false⟩ ∧
    createTodo (.wellFormed (some s4) c) ins db
      = ⟨[(400, .errorMsg (parseValidationError s4))], db, false⟩ ∧
    createTodo (.wellFormed (some s2) c) (.success oid) db
      = ⟨[(201, .todoBody ⟨oid, s2, c.getD false⟩)], db ++ [⟨oid, s2, c.getD false⟩], false⟩ ∧
    createTodo (.wellFormed (some s3) c) (.success oid) db
      = ⟨[(201, .todoBody ⟨oid, s3, c.getD false⟩)], db ++ [⟨oid, s3, c.getD false⟩], false⟩ ∧
    createTodo (.wellFormed (some s2) none) (.success oid) db
      = ⟨[(201, .todoBody ⟨oid, s2, false⟩)], db ++ [⟨oid, s2, false⟩], false⟩ := by
  have hv1 : validateItem s1 = false := by
    rw [Bool.eq_false_iff, Ne, validateItem_iff]
    omega
  have hv4 : validateItem s4 = false := by
    rw [Bool.eq_false_iff, Ne, validateItem_iff]
    omega
  have hv2 : validateItem s2 = true := by
    rw [validateItem_iff]
    omega
  have hv3 : validateItem s3 = true := by
    rw [validateItem_iff]
    omega
  refine ⟨?_, ?_, ?_, ?_, ?_⟩ <;>
    simp [createTodo, bindPayload, hv1, hv2, hv3, hv4]

/-- Witness for C5 at the concrete boundary strings (length 1, 2, 100 and
101). -/
theorem c5_create_item_length_boundaries_witness :
    createTodo (.wellFormed (some "a") (some true)) (.success ⟨List.replicate 12 0⟩) []
      = ⟨[(400, .errorMsg (parseValidationError "a"))], [], false⟩ ∧
    createTodo (.wellFormed (some "ab") none) (.success ⟨List.replicate 12 0⟩) []
      = ⟨[(201, .todoBody ⟨⟨List.replicate 12 0⟩, "ab", false⟩)],
         [⟨⟨List.replicate 12 0⟩, "ab", false⟩], false⟩ := by
  have h := c5_create_item_length_boundaries "a" "ab"
    (String.mk (List.replicate 100 'a')) (String.mk (List.replicate 101 'a'))
    rfl rfl rfl rfl (some true) (.success ⟨List.replicate 12 0⟩) [] ⟨List.replicate 12 0⟩
  exact ⟨h.1, h.2.2.2.2⟩

/-- C6: a PUT with a valid payload on an existing record replaces only its
`item` field: the stored identifier and `completed` and every other record
are unchanged, any `completed` supplied in the payload (`pc`, arbitrary)
is ignored, and the response is the post-update record. -/
theorem c6_update_changes_only_item (idStr : String) (oid : ObjectID)
    (hhex : objectIDFromHex idStr = some oid)
    (pre post : List todo) (t : todo)
    (hpre : ∀ u ∈ pre, u.ID ≠ oid) (ht : t.ID = oid)
    (s : String) (hvalid : validateItem s = true) (pc : Option Bool) :
    updateTodo idStr (.wellFormed (some s) pc) none (pre ++ t :: post)
      = ⟨[(200, .todoBody ⟨t.ID, s, t.Completed⟩)],
         pre ++ ⟨t.ID, s, t.Completed⟩ :: post, false⟩ := by
  simp [updateTodo, hhex, bindPayload, hvalid, findOneAndUpdate,
    setItemFirst_split pre post t oid s hpre ht]

/-- Witness for C6 at a concrete record and payload (payload `completed`
is true, stored `completed` stays false). -/
theorem c6_update_changes_only_item_witness :
    updateTodo "aaaaaaaaaaaaaaaaaaaaaaaa" (.wellFormed (some "new text") (some true)) none
      [⟨⟨List.replicate 12 170⟩, "old text", false⟩]
      = ⟨[(200, .todoBody ⟨⟨List.replicate 12 170⟩, "new text", false⟩)],
         [⟨⟨List.replicate 12 170⟩, "new text", false⟩], false⟩ :=
  c6_update_changes_only_item "aaaaaaaaaaaaaaaaaaaaaaaa" ⟨List.replicate 12 170⟩ (by decide)
    [] [] ⟨⟨List.replicate 12 170⟩, "old text", false⟩ (by decide) rfl
    "new text" (by decide) (some true)

/-- C7: toggling an existing record flips exactly its `completed` field,
in both the stored collection and the response, leaving `item`, the
identifier and the other records unchanged; toggling twice in succession
with no interleaved operation restores the original collection state and
the second response carries the original record. -/
theorem c7_toggle_twice_restores (idStr : String) (oid : ObjectID)
    (hhex : objectIDFromHex idStr = some oid)
    (pre post : List todo) (t : todo)
    (hpre : ∀ u ∈ pre, u.ID ≠ oid) (ht : t.ID = oid) :
    toggleTodoStatus idStr none none (pre ++ t :: post) (pre ++ t :: post)
      = ⟨[(200, .todoBody ⟨t.ID, t.Item, !t.Completed⟩)],
         pre ++ ⟨t.ID, t.Item, !t.Completed⟩ :: post, false⟩ ∧
    toggleTodoStatus idStr none none
      (pre ++ ⟨t.ID, t.Item, !t.Completed⟩ :: post)
      (pre ++ ⟨t.ID, t.Item, !t.Completed⟩ :: post)
      = ⟨[(200, .todoBody t)], pre ++ t :: post, false⟩ := by
  constructor
  · simp [toggleTodoStatus, hhex, findOne, find_split pre post t oid hpre ht, updateOne,
      setCompletedFirst_split pre post t oid (!t.Completed) hpre ht]
  · have hfind := find_split pre post ⟨t.ID, t.Item, !t.Completed⟩ oid hpre ht
    have hset := setCompletedFirst_split pre post ⟨t.ID, t.Item, !t.Completed⟩ oid
      (!(!t.Completed)) hpre ht
    simp only [Bool.not_not] at hset
    simp [toggleTodoStatus, hhex, findOne, hfind, updateOne, hset]

/-- Witness for C7 at a concrete one-record collection. -/
theorem c7_toggle_twice_restores_witness :
    toggleTodoStatus "aaaaaaaaaaaaaaaaaaaaaaaa" none none
      [⟨⟨List.replicate 12 170⟩, "task", false⟩] [⟨⟨List.replicate 12 170⟩, "task", false⟩]
      = ⟨[(200, .todoBody ⟨⟨List.replicate 12 170⟩, "task", true⟩)],
         [⟨⟨List.replicate 12 170⟩, "task", true⟩], false⟩ :=
  (c7_toggle_twice_restores "aaaaaaaaaaaaaaaaaaaaaaaa" ⟨List.replicate 12 170⟩ (by decide)
    [] [] ⟨⟨List.replicate 12 170⟩, "task", false⟩ (by decide) rfl).1

/-- C8: deleting an existing record answers 200 with the record's
last-known state and removes exactly that record; a subsequent GET of the
same identifier (the identifier being unique in the collection) answers
404 and leaves the collection unchanged. -/
theorem c8_delete_then_get_404 (idStr : String) (oid : ObjectID)
    (hhex : objectIDFromHex idStr = some oid)
    (pre post : List todo) (t : todo)
    (hpre : ∀ u ∈ pre, u.ID ≠ oid) (ht : t.ID = oid)
    (hpost : ∀ u ∈ post, u.ID ≠ oid) :
    deleteTodo idStr none (pre ++ t :: post)
      = ⟨[(200, .todoBody t)], pre ++ post, false⟩ ∧
    getTodo idStr none (pre ++ post)
      = ⟨[(404, .errorMsg DbErr.noDocuments.message)], pre ++ post, false⟩ := by
  have hmiss : ∀ u ∈ pre ++ post, u.ID ≠ oid := by
    intro u hu
    rcases List.mem_append.mp hu with h | h
    · exact hpre u h
    · exact hpost u h
  constructor
  · simp [deleteTodo, hhex, findOneAndDelete, removeFirst_split pre post t oid hpre ht]
  · simp [getTodo, hhex, findOne, find_eq_none _ oid hmiss]

/-- Witness for C8 at a concrete one-record collection. -/
theorem c8_delete_then_get_404_witness :
    deleteTodo "aaaaaaaaaaaaaaaaaaaaaaaa" none [⟨⟨List.replicate 12 170⟩, "task", true⟩]
      = ⟨[(200, .todoBody ⟨⟨List.replicate 12 170⟩, "task", true⟩)], [], false⟩ ∧
    getTodo "aaaaaaaaaaaaaaaaaaaaaaaa" none []
      = ⟨[(404, .errorMsg DbErr.noDocuments.message)], [], false⟩ :=
  c8_delete_then_get_404 "aaaaaaaaaaaaaaaaaaaaaaaa" ⟨List.replicate 12 170⟩ (by decide)
    [] [] ⟨⟨List.replicate 12 170⟩, "task", true⟩ (by decide) rfl (by decide)

theorem runCreates_eq_append (reqs : List (String × Bool × ObjectID)) (db : List todo)
    (hvalid : ∀ r ∈ reqs, validateItem r.1 = true) :
    runCreates reqs db = db ++ reqs.map mkTodo := by
  induction reqs generalizing db with
  | nil => simp [runCreates]
  | cons r rest ih =>
      have hr := hvalid r (List.mem_cons_self r rest)
      simp [runCreates, createTodo, bindPayload, hr, mkTodo,
        ih _ fun u hu => hvalid u (List.mem_cons_of_mem r hu)]

/-- C9: listing an empty collection answers 200 with the empty array (not
an error, not null); after N successful creates (valid items, distinct
generated identifiers) and no deletes, listing answers 200 with exactly
the N created records, each appearing once. -/
theorem c9_list_empty_and_after_creates (reqs : List (String × Bool × ObjectID))
    (hvalid : ∀ r ∈ reqs, validateItem r.1 = true)
    (hids : (reqs.map fun r => r.2.2).Nodup) :
    getTodos none [] = ⟨[(200, .todosBody [])], [], false⟩ ∧
    getTodos none (runCreates reqs [])
      = ⟨[(200, .todosBody (reqs.map mkTodo))], reqs.map mkTodo, false⟩ ∧
    (runCreates reqs []).length = reqs.length ∧
    (runCreates reqs []).Nodup := by
  have hrun : runCreates reqs [] = reqs.map mkTodo := by
    simpa using runCreates_eq_append reqs [] hvalid
  have hmapid : (reqs.map mkTodo).map (fun t => t.ID) = reqs.map fun r => r.2.2 := by
    simp [List.map_map, Function.comp_def, mkTodo]
  refine ⟨rfl, ?_, ?_, ?_⟩
  · simp [getTodos, hrun]
  · simp [hrun]
  · rw [hrun]
    rw [← hmapid] at hids
    exact List.Nodup.of_map _ hids

/-- Witness for C9 after two concrete creates with distinct generated
identifiers. -/
theorem c9_list_empty_and_after_creates_witness :
    getTodos none (runCreates
        [("ab", false, ⟨List.replicate 12 0⟩), ("cd", true, ⟨List.replicate 12 1⟩)] [])
      = ⟨[(200, .todosBody
            [⟨⟨List.replicate 12 0⟩, "ab", false⟩, ⟨⟨List.replicate 12 1⟩, "cd", true⟩])],
         [⟨⟨List.replicate 12 0⟩, "ab", false⟩, ⟨⟨List.replicate 12 1⟩, "cd", true⟩],
         false⟩ :=
  (c9_list_empty_and_after_creates
    [("ab", false, ⟨List.replicate 12 0⟩), ("cd", true, ⟨List.replicate 12 1⟩)]
    (by decide) (by decide)).2.1

/-- C10: whenever `createTodo` or `updateTodo` answers 400 (malformed
body, failed validation, or — for update — an invalid identifier), the
collection is unchanged and the handler's entire result is independent of
the storage layer (the same result arises under every insert outcome and
every injected storage failure): no database operation was issued. -/
theorem c10_client_error_leaves_db_unchanged (body : ReqBody) (idStr : String)
    (db : List todo) (ins ins2 : InsertOutcome) (f f2 : Option String) :
    ((createTodo body ins db).responses.head?.map Prod.fst = some 400 →
      (createTodo body ins db).db = db ∧
      createTodo body ins db = createTodo body ins2 db) ∧
    ((updateTodo idStr body f db).responses.head?.map Prod.fst = some 400 →
      (updateTodo idStr body f db).db = db ∧
      updateTodo idStr body f db = updateTodo idStr body f2 db) := by
  constructor
  · intro h400
    cases body with
    | malformed => exact ⟨rfl, rfl⟩
    | wellFormed item completed =>
        by_cases hv : validateItem (bindPayload item completed).Item = true
        · exfalso
          cases ins with
          | failure msg => simp [createTodo, hv] at h400
          | success newId => simp [createTodo, hv] at h400
        · simp [createTodo, hv]
  · intro h400
    cases hhex : objectIDFromHex idStr with
    | none => simp [updateTodo, hhex]
    | some oid =>
        cases body with
        | malformed => simp [updateTodo, hhex]
        | wellFormed item completed =>
            by_cases hv : validateItem (bindPayload item completed).Item = true
            · exfalso
              cases f with
              | some m => simp [updateTodo, hhex, hv, findOneAndUpdate] at h400
              | none =>
                  cases hs : setItemFirst db oid (bindPayload item completed).Item with
                  | none =>
                      simp [updateTodo, hhex, hv, findOneAndUpdate, hs] at h400
                  | some r =>
                      simp [updateTodo, hhex, hv, findOneAndUpdate, hs] at h400
            · simp [updateTodo, hhex, hv]

/-- Witness for C10: a malformed create body and an update with an invalid
identifier, both 400, both leaving the collection unchanged and
independent of the storage layer. -/
theorem c10_client_error_leaves_db_unchanged_witness :
    (createTodo .malformed (.success ⟨List.replicate 12 0⟩)
        [⟨⟨List.replicate 12 1⟩, "task", false⟩]).db
      = [⟨⟨List.replicate 12 1⟩, "task", false⟩] ∧
    (updateTodo "nope" .malformed (some "storage down")
        [⟨⟨List.replicate 12 1⟩, "task", false⟩]).db
      = [⟨⟨List.replicate 12 1⟩, "task", false⟩] := by
  have h := c10_client_error_leaves_db_unchanged .malformed "nope"
    [⟨⟨List.replicate 12 1⟩, "task", false⟩]
    (.success ⟨List.replicate 12 0⟩) (.failure "e") (some "storage down") none
  exact ⟨(h.1 (by decide)).1, (h.2 (by decide)).1⟩

end SimpleCrud
